import Mathlib

/-!
Shallow embedding of the Jenkins-TEM automation script (`script.py`) of the
`gl-jenkins-tem` repository, together with theorems settling the spec claims
about its commit gate, build trigger, queue resolver, completion watcher,
UI automation driver and pipeline orchestrator.

Modelling conventions:
* External effects (the `git` subprocess, Jenkins HTTP responses, the browser)
  are passed in as explicit environment values; each embedded function is the
  pure control flow of the corresponding Python function over that input.
* Python truthiness of the values actually used by the script (`None`, `""`,
  `0` are falsy) is embedded by the `pyTruthy`/`pyTruthyNat` helpers.
* A Python function that can raise is given an environment constructor for
  the raising case; `try/except` blocks are embedded by the branch structure.
-/

namespace JenkinsTem

/-- Python truthiness of an `Option String` value (`None` and `""` are falsy),
as used by `run_automation` (`if not new_commit`, `if not queue_url`) and by
`trigger_jenkins_build` (`if queue_url:`). -/
def pyTruthy (o : Option String) : Bool :=
  match o with
  | none => false
  | some s => !(s == "")

/-- Python truthiness of an `Option Nat` (`None` and `0` falsy), as used for
`if not build_number` and `if last_build:`. -/
def pyTruthyNat (o : Option Nat) : Bool :=
  match o with
  | none => false
  | some n => !(n == 0)

/-- Python `str.strip()` on the underlying char list: drop leading and
trailing whitespace.  (Implemented over `List Char` so that the kernel can
evaluate it on concrete inputs.) -/
def pyStrip (s : String) : String :=
  ⟨((s.data.dropWhile Char.isWhitespace).reverse.dropWhile
      Char.isWhitespace).reverse⟩

/-- Python `s.split(c)` for a one-character separator, over char lists:
splitting always yields at least one (possibly empty) piece, and a trailing
separator yields a trailing empty piece. -/
def splitOnChar (c : Char) : List Char → List (List Char)
  | [] => [[]]
  | x :: xs =>
    if x == c then [] :: splitOnChar c xs
    else
      match splitOnChar c xs with
      | [] => [[x]]
      | h :: t => (x :: h) :: t

/-- Python `text.split("\n")`. -/
def pySplitNl (s : String) : List String :=
  (splitOnChar '\n' s.data).map (fun l => ⟨l⟩)

/-- Python substring test `needle in haystack` on the underlying char lists. -/
def subListOf (n : List Char) : List Char → Bool
  | [] => n.isEmpty
  | c :: rest => ((c :: rest).take n.length == n) || subListOf n rest

/-- Python `needle in haystack` for strings. -/
def strIn (needle haystack : String) : Bool :=
  subListOf needle.toList haystack.toList

/-! ## Commit Gate (`check_for_new_commits`, script.py lines 197-228) -/

/-- Result of `subprocess.run(["git", "rev-parse", "origin/master"], ...)`:
either the call raised an exception (`err`), or the process ran and produced
an exit code and captured stdout.  The script never inspects the exit code. -/
inductive GitResult where
  | err
  | ran (exitCode : Nat) (stdout : String)
deriving DecidableEq

/-- The persisted-marker value read by the gate: `f.read().strip()`, with a
missing `.last_processed_commit` file (FileNotFoundError) read as `""`. -/
def markerValue : Option String → String
  | none => ""
  | some s => pyStrip s

/-- Embedding of `BuildAutomator.check_for_new_commits`.  The whole body is in
a `try` whose `except` returns `None`; an exception from `subprocess.run` is
the `GitResult.err` case.  Otherwise `latest_commit = result.stdout.strip()`
is compared, with `!=`, against the persisted marker; the exit code of the git
process is never examined. -/
def check_for_new_commits (git : GitResult) (markerFile : Option String) :
    Option String :=
  match git with
  | .err => none
  | .ran _ stdout =>
    let latest := pyStrip stdout
    if latest ≠ markerValue markerFile then some latest else none

/-! ## Build Trigger (`trigger_jenkins_build`, script.py lines 230-292) -/

/-- One entry of the Jenkins queue listing: `item.get("task", {}).get("url", "")`
and `item.get("url")`. -/
structure QueueItem where
  taskUrl : String
  url : Option String
deriving DecidableEq

/-- Environment for one `trigger_jenkins_build` call: the POST response's
status code and optional `Location` header, the queue-listing lookup's result
(`none` when that GET raised or was not `ok`), the last-build lookup's result
(`none` when that GET raised or was not `ok`; `some b` holds the optional
`lastBuild.number` of the body), and the configured job name / base URL. -/
structure TriggerEnv where
  status : Nat
  location : Option String
  queueListing : Option (List QueueItem)
  lastBuild : Option (Option Nat)
  jobName : String
  jenkinsUrl : String
deriving DecidableEq

/-- Result of `trigger_jenkins_build` together with which fallback lookups
were performed (the GET requests issued). -/
structure TriggerResult where
  handle : Option String
  queueLookup : Bool
  lastBuildLookup : Bool
deriving DecidableEq

/-- Fallback 2 of the trigger: `data.get("lastBuild", {}).get("number")`,
returned as `f"{self.jenkins_url}{last_build}/"` when truthy. -/
def last_build_fallback (env : TriggerEnv) : Option String :=
  match env.lastBuild with
  | some (some n) =>
    if n ≠ 0 then some (env.jenkinsUrl ++ toString n ++ "/") else none
  | _ => none

/-- The two fallback strategies, in order: scan the queue listing for the
first item whose task url contains the job name (returning that item's `url`,
which may itself be `None`); otherwise fall back to the last known build.
The second component records whether the last-build lookup was reached. -/
def trigger_fallbacks (env : TriggerEnv) : Option String × Bool :=
  match env.queueListing with
  | some items =>
    match items.find? (fun it => strIn env.jobName it.taskUrl) with
    | some it => (it.url, false)
    | none => (last_build_fallback env, true)
  | none => (last_build_fallback env, true)

/-- Embedding of `BuildAutomator.trigger_jenkins_build`.  On a 2xx status the
`Location` header is used when truthy (`if queue_url:` — an empty-string
header is falsy and falls through to the fallbacks); otherwise the ordered
fallback chain runs.  Any non-2xx status returns `None` with no fallback. -/
def trigger_jenkins_build (env : TriggerEnv) : TriggerResult :=
  if 200 ≤ env.status ∧ env.status < 300 then
    if pyTruthy env.location then ⟨env.location, false, false⟩
    else
      match trigger_fallbacks env with
      | (h, lb) => ⟨h, true, lb⟩
  else ⟨none, false, false⟩

/-! ## Queue Resolver notifications (`get_build_number_from_queue`,
script.py lines 294-375)

`check_queue` computes, on every still-queued 2xx poll that carries an
`inQueueSince` timestamp,
`queued_for = int((time.time() * 1000 - in_queue_since) / 1000)` and
`mins = queued_for // 60`, and logs a progress notification exactly when
`mins > 0 and mins % 15 == 0 and mins != last_reported_minute`, setting
`last_reported_minute = mins`.  `queueNotifications` folds that notification
logic over the poll timestamps (in milliseconds) of a run of still-pending
polls against a fixed `inQueueSince`, returning the reported minute marks. -/

/-- Queued whole minutes at wall-clock time `t` ms for enqueue time `q` ms. -/
def pollMins (q t : Nat) : Nat := (t - q) / 1000 / 60

/-- Minute marks reported by the queue resolver over a run of still-pending
polls at wall-clock times `ts` (ms), starting from `last_reported_minute`
(initially `-1` in the script). -/
def queueNotifications (q : Nat) : List Nat → Int → List Nat
  | [], _ => []
  | t :: ts, last =>
    if 0 < pollMins q t ∧ pollMins q t % 15 = 0 ∧ (pollMins q t : Int) ≠ last
    then pollMins q t :: queueNotifications q ts (pollMins q t)
    else queueNotifications q ts last

/-- The jitter-free schedule of the spec's example: one poll every 10 seconds
for exactly 45 minutes of queued time (enqueued at time 0). -/
def tenSecondPolls : List Nat := (List.range 270).map (fun i => 10000 * (i + 1))

/-! ## Completion Watcher (`wait_for_build_completion`, script.py 377-457) -/

/-- Body of one `GET <build>/api/json` response: status code, and the JSON
fields read by the script (`data.get("building", True)`,
`data.get("result", "UNKNOWN")`). -/
structure BuildApiResp where
  status : Nat
  building : Option Bool
  result : Option String
deriving DecidableEq

/-- One observation made by `check_build`: the build-status response plus the
`consoleText` response that would be fetched on a non-success terminal
result. -/
structure BuildObs where
  resp : BuildApiResp
  consoleStatus : Nat
  consoleText : String
deriving DecidableEq

/-- One poll of the watcher loop: either `requests.get` raised (a network
error, which propagates out of the loop), or a response was observed. -/
inductive BuildPoll where
  | netErr
  | obs (o : BuildObs)
deriving DecidableEq

/-- Return value of the inner `check_build` closure: `True`, the string
`"FAILED"` (carrying, in this embedding, the console tail that was logged),
`False`, or the string `"ERROR"`. -/
inductive CheckBuildRes where
  | finishedOk
  | failed (tail : List String)
  | stillRunning
  | httpError
deriving DecidableEq, BEq

/-- The console-output lines logged on a failed build: the last 20 entries of
`console_response.text.split("\n")`, skipping blank lines, and nothing at all
when the console fetch was not 2xx. -/
def consoleTailShown (status : Nat) (text : String) : List String :=
  if 200 ≤ status ∧ status < 300 then
    ((pySplitNl text).drop ((pySplitNl text).length - 20)).filter
      (fun l => !(pyStrip l == ""))
  else []

/-- Embedding of the `check_build` closure.  A non-2xx status returns the
`"ERROR"` sentinel; a 2xx body with falsy `building` is terminal and is
classified by `result == "SUCCESS"`; otherwise the build is still running. -/
def check_build (o : BuildObs) : CheckBuildRes :=
  if 200 ≤ o.resp.status ∧ o.resp.status < 300 then
    if o.resp.building.getD true = false then
      if o.resp.result.getD "UNKNOWN" = "SUCCESS" then .finishedOk
      else .failed (consoleTailShown o.consoleStatus o.consoleText)
    else .stillRunning
  else .httpError

/-- Python truthiness of a `check_build` return value, which is what
`log_with_spinner` uses to decide whether to break out of its poll loop
(`True`, `"FAILED"` and `"ERROR"` are all truthy; only `False` continues). -/
def isTruthyCheck : CheckBuildRes → Bool
  | .stillRunning => false
  | _ => true

/-- Outcome of the `log_with_spinner` poll loop over the watcher's polls. -/
inductive PollLoopRes where
  | timeout
  | broke (r : CheckBuildRes)
  | raised
deriving DecidableEq

/-- The `log_with_spinner` loop as run by `wait_for_build_completion`: call
`check_build` on each successive poll until its result is truthy (break), the
poll raises (the exception propagates), or the duration budget is exhausted
(modelled by the list running out, in which case the spinner returns `None`). -/
def pollLoop : List BuildPoll → PollLoopRes
  | [] => .timeout
  | .netErr :: _ => .raised
  | .obs o :: rest =>
    let r := check_build o
    if isTruthyCheck r then .broke r else pollLoop rest

/-- Embedding of `BuildAutomator.wait_for_build_completion` (for a truthy
build number): `True` from the spinner means success, `"FAILED"`/`"ERROR"`
mean failure, a propagated exception is caught by the outer `except` and
returns `False`, and on spinner timeout one final `check_build` decides
(`final_result is True`). -/
def wait_for_build_completion (polls : List BuildPoll) (finalObs : BuildPoll) :
    Bool :=
  match pollLoop polls with
  | .raised => false
  | .broke .finishedOk => true
  | .broke _ => false
  | .timeout =>
    match finalObs with
    | .netErr => false
    | .obs o => check_build o == CheckBuildRes.finishedOk

/-! ## UI Automation Driver (`safe_click` lines 476-513,
`execute_tem_automation` lines 515-667) -/

/-- What the page does on one `safe_click` attempt: the clickable-wait times
out (TimeoutException, caught: the step returns `False`); the direct
`element.click()` succeeds; or the direct click raises
ElementClickInterceptedException / ElementNotInteractableException and the
forced scroll-into-view JS click either succeeds or fails. -/
inductive ClickEnv where
  | clickableTimeout
  | directOk
  | intercepted (jsOk : Bool)
deriving DecidableEq

/-- Embedding of `BuildAutomator.safe_click`: a Boolean resilient-click
primitive; every failure path is caught inside it and returns `False`.
(The busy-indicator wait only logs on timeout and never changes the result.) -/
def safe_click : ClickEnv → Bool
  | .clickableTimeout => false
  | .directOk => true
  | .intercepted jsOk => jsOk

/-- Outcome of an operation whose failure raises out of the surrounding code
into the driver's outer `except` (navigation, the bare `wait.until` calls, and
the `clear`/`send_keys` input fills grouped with them). -/
inductive WaitOutcome where
  | ok
  | raised
deriving DecidableEq

/-- Environment of one `execute_tem_automation` run: whether the Chrome
driver could be set up, one outcome per step of the fixed sequence.
`confirmFound` is the final confirmation-message wait, whose TimeoutException
is caught locally (both branches then click the OK button). -/
structure TemEnv where
  driverSetup : Bool
  navigate : WaitOutcome
  clickLogin : ClickEnv
  waitLogin : WaitOutcome
  clickExecTab : ClickEnv
  clickCreateJob : ClickEnv
  clickBranchDrop : ClickEnv
  clickBranchOpt : ClickEnv
  clickVersionDrop : ClickEnv
  clickVersionOpt : ClickEnv
  clickPlanSearch : ClickEnv
  waitSearchInput : WaitOutcome
  clickPlanResult : ClickEnv
  clickBaseUrlOk : ClickEnv
  waitEmailInput : WaitOutcome
  clickUsageDrop : ClickEnv
  clickUsageOpt : ClickEnv
  clickSubmit : ClickEnv
  confirmFound : Bool
  clickOk : ClickEnv
deriving DecidableEq

/-- Result of one driver run: the returned Boolean, and the steps of the
fixed sequence that were attempted (in order). -/
structure TemRun where
  result : Bool
  attempted : List String
deriving DecidableEq

/-- The fixed step sequence of the driver, named after the `description`
strings passed to `safe_click` in the source. -/
def temSteps : List String :=
  ["navigate", "Login button", "login wait", "Executions tab",
   "Create Execution Job", "Script Branch dropdown", "Script Branch option",
   "Script Version dropdown", "Script Version option", "Test Plan search icon",
   "search input", "Test Plan search result", "Base URL OK button",
   "email input", "Usage Type dropdown", "Usage Type option", "Submit button",
   "confirmation wait", "OK button"]

/-- Embedding of `BuildAutomator.execute_tem_automation`.  Each
`self.safe_click(...)` is an expression statement whose Boolean result is
discarded, so a failed click never changes control flow; only a failed driver
setup or an exception escaping to the outer `except` (from `driver.get`, a
bare `wait.until`, or the grouped input fills) returns `False`.  The final
confirmation wait catches its own TimeoutException and clicks OK either
way. -/
def execute_tem_automation (env : TemEnv) : TemRun :=
  if env.driverSetup = false then ⟨false, []⟩
  else match env.navigate with
  | .raised => ⟨false, temSteps.take 1⟩
  | .ok =>
    let _ := safe_click env.clickLogin
    match env.waitLogin with
    | .raised => ⟨false, temSteps.take 3⟩
    | .ok =>
      let _ := safe_click env.clickExecTab
      let _ := safe_click env.clickCreateJob
      let _ := safe_click env.clickBranchDrop
      let _ := safe_click env.clickBranchOpt
      let _ := safe_click env.clickVersionDrop
      let _ := safe_click env.clickVersionOpt
      let _ := safe_click env.clickPlanSearch
      match env.waitSearchInput with
      | .raised => ⟨false, temSteps.take 11⟩
      | .ok =>
        let _ := safe_click env.clickPlanResult
        let _ := safe_click env.clickBaseUrlOk
        match env.waitEmailInput with
        | .raised => ⟨false, temSteps.take 14⟩
        | .ok =>
          let _ := safe_click env.clickUsageDrop
          let _ := safe_click env.clickUsageOpt
          let _ := safe_click env.clickSubmit
          let _ := env.confirmFound
          let _ := safe_click env.clickOk
          ⟨true, temSteps⟩

/-! ## Pipeline Orchestrator (`update_processed_commit` lines 669-678,
`run_automation` lines 680-729, `main` lines 732-871) -/

/-- Embedding of `BuildAutomator.update_processed_commit`: the marker-file
write either succeeds, or raises and is caught by the function's own
`except`, which only logs a warning.  Returns the marker file's content
afterwards and whether the warning was logged. -/
def update_processed_commit (writeOk : Bool) (commitHash : String)
    (markerFile : Option String) : Option String × Bool :=
  if writeOk then (some commitHash, false) else (markerFile, true)

/-- Environment of one `run_automation` call: inputs of the gate, the
trigger, the queue resolver's returned build number, the watcher's polls, the
driver's environment, and whether the marker write succeeds. -/
structure RunEnv where
  git : GitResult
  marker : Option String
  triggerEnv : TriggerEnv
  queueBuildNumber : Option Nat
  buildPolls : List BuildPoll
  buildFinal : BuildPoll
  temEnv : TemEnv
  markerWriteOk : Bool
deriving DecidableEq

/-- Observable outcome of one `run_automation` call: the stages that were
invoked, the marker file afterwards, and whether the final
"Automation completed successfully!" message was logged. -/
structure RunState where
  stagesRun : List String
  marker : Option String
  completedLog : Bool
deriving DecidableEq

/-- Embedding of `BuildAutomator.run_automation`: five stages, each guarded by
a Python-truthiness check of the previous stage's result (`if not x: return`);
the marker is written only after the TEM stage reports `True`. -/
def run_automation (env : RunEnv) : RunState :=
  let new_commit := check_for_new_commits env.git env.marker
  if pyTruthy new_commit = false then
    ⟨["gate"], env.marker, false⟩
  else if pyTruthy (trigger_jenkins_build env.triggerEnv).handle = false then
    ⟨["gate", "trigger"], env.marker, false⟩
  else if pyTruthyNat env.queueBuildNumber = false then
    ⟨["gate", "trigger", "queue"], env.marker, false⟩
  else if wait_for_build_completion env.buildPolls env.buildFinal = false then
    ⟨["gate", "trigger", "queue", "build"], env.marker, false⟩
  else if (execute_tem_automation env.temEnv).result = false then
    ⟨["gate", "trigger", "queue", "build", "tem"], env.marker, false⟩
  else
    ⟨["gate", "trigger", "queue", "build", "tem", "marker"],
     (update_processed_commit env.markerWriteOk (new_commit.getD "")
        env.marker).1,
     true⟩

/-- The parsed command-line flags of `main`. -/
structure Args where
  build : Bool
  check : Bool
  helpSetup : Bool
  testJenkins : Bool
  testTem : Bool
deriving DecidableEq

/-- Embedding of `main` as the process exit status it produces.  Every branch
of the Python function returns normally (all stage failures are logged,
caught, or swallowed, including `BuildAutomator()` construction errors,
modelled by `initOk`), so the interpreter exits with status 0 on every path. -/
def main (args : Args) (initOk : Bool) (env : RunEnv) : Nat :=
  if args.helpSetup then 0
  else if args.check then 0
  else if args.testJenkins then 0
  else if args.testTem then 0
  else if !args.build then 0
  else if !initOk then 0
  else
    let _ := run_automation env
    0

/-! ## Concrete environments used as test inputs by the claim theorems -/

/-- A TEM environment in which the login `safe_click` fails (its clickable
wait times out) while everything else behaves; fields follow `TemEnv` order. -/
def c1_env : TemEnv :=
  ⟨true, .ok, .clickableTimeout, .ok, .directOk, .directOk, .directOk,
   .directOk, .directOk, .directOk, .directOk, .ok, .directOk, .directOk,
   .ok, .directOk, .directOk, .directOk, true, .directOk⟩

/-- A fully well-behaved TEM environment. -/
def temEnvOk : TemEnv :=
  ⟨true, .ok, .directOk, .ok, .directOk, .directOk, .directOk, .directOk,
   .directOk, .directOk, .directOk, .ok, .directOk, .directOk, .ok,
   .directOk, .directOk, .directOk, true, .directOk⟩

/-- A trigger environment whose POST gets 201 with a usable Location header. -/
def trigEnvOk : TriggerEnv := ⟨201, some "Q/", none, none, "myjob", "J/"⟩

/-- A trigger environment whose POST gets a 500 status. -/
def trigEnvBad : TriggerEnv := ⟨500, none, none, none, "myjob", "J/"⟩

/-- A trigger environment: 201 with a Location header present but empty, and
a matching item waiting in the queue listing. -/
def envC9 : TriggerEnv :=
  ⟨201, some "", some [⟨"J/job/myjob/", some "J/queue/item/77/"⟩],
   some (some 7), "myjob", "J/"⟩

/-- A 2xx build-status poll observing a terminal successful build. -/
def obsOk : BuildObs := ⟨⟨200, some false, some "SUCCESS"⟩, 200, ""⟩

/-- A build-status poll answered with a 500 status. -/
def obs500 : BuildObs := ⟨⟨500, none, none⟩, 200, ""⟩

/-- A 2xx build-status poll observing a terminal failed build (the console
fetch for the log tail then gets a 500, so no tail lines are shown). -/
def obsFail : BuildObs := ⟨⟨200, some false, some "FAILURE"⟩, 500, ""⟩

/-- Full-run environment: new commit present, but the trigger POST fails. -/
def envC2 : RunEnv :=
  ⟨.ran 0 "abc\n", none, trigEnvBad, none, [], .obs obsOk, temEnvOk, true⟩

/-- Full-run environment in which the git lookup fails with exit code 128
while still printing `origin/master` on stdout, as `git rev-parse` does for
an unresolvable ref, and no marker file exists. -/
def envC4 : RunEnv :=
  ⟨.ran 128 "origin/master\n", none, trigEnvBad, none, [], .obs obsOk,
   temEnvOk, true⟩

/-- Scenario A of the spec: marker `"abc123"` and remote head `"abc123"`. -/
def envA : RunEnv :=
  ⟨.ran 0 "abc123\n", some "abc123", trigEnvOk, some 1, [.obs obsOk],
   .obs obsOk, temEnvOk, true⟩

/-- Full-run environment reaching the watcher, which observes a terminal
`FAILURE` build. -/
def envC6 : RunEnv :=
  ⟨.ran 0 "abc\n", none, trigEnvOk, some 5, [.obs obsFail], .obs obsFail,
   temEnvOk, true⟩

/-- Full-run environment in which every stage succeeds but the marker-file
write fails. -/
def envC10 : RunEnv :=
  ⟨.ran 0 "abc\n", none, trigEnvOk, some 3, [.obs obsOk], .obs obsOk,
   temEnvOk, false⟩

/-- The flags of a full-run invocation (`python script.py --build`). -/
def fullRunArgs : Args := ⟨true, false, false, false, false⟩

/-! ## Claim C1 — UI Automation Driver abort semantics -/

/-- Claim C1 is false on the code: in a run whose login `safe_click` fails,
the driver still attempts every later step of the fixed sequence (including
the terminal Submit step) and still returns `True`, because the Boolean
result of every `self.safe_click(...)` call is discarded. -/
theorem claim1_counterexample :
    safe_click c1_env.clickLogin = false
    ∧ (execute_tem_automation c1_env).result = true
    ∧ "Submit button" ∈ (execute_tem_automation c1_env).attempted := by
  refine ⟨rfl, rfl, ?_⟩
  decide

/-- Claim C1 amended: `execute_tem_automation` ignores `safe_click`'s Boolean
result, so a failed click never aborts the run; whenever the driver starts
and no exception escapes the navigation or the bare waits, every step of the
fixed sequence is attempted and the result is `True`, regardless of click
outcomes; conversely the result is `False` only when driver setup fails or
one of those exceptions occurs. -/
theorem claim1_theorem (env : TemEnv) (hd : env.driverSetup = true)
    (h1 : env.navigate = .ok) (h2 : env.waitLogin = .ok)
    (h3 : env.waitSearchInput = .ok) (h4 : env.waitEmailInput = .ok) :
    ((execute_tem_automation env).result = true
      ∧ (execute_tem_automation env).attempted = temSteps)
    ∧ (∀ e : TemEnv, (execute_tem_automation e).result = false →
        e.driverSetup = false ∨ e.navigate = .raised ∨ e.waitLogin = .raised
          ∨ e.waitSearchInput = .raised ∨ e.waitEmailInput = .raised) := by
  constructor
  · simp [execute_tem_automation, hd, h1, h2, h3, h4]
  · intro e he
    cases e with
    | mk driverSetup navigate clickLogin waitLogin clickExecTab clickCreateJob
        clickBranchDrop clickBranchOpt clickVersionDrop clickVersionOpt
        clickPlanSearch waitSearchInput clickPlanResult clickBaseUrlOk
        waitEmailInput clickUsageDrop clickUsageOpt clickSubmit confirmFound
        clickOk =>
      cases driverSetup <;> cases navigate <;> cases waitLogin <;>
        cases waitSearchInput <;> cases waitEmailInput <;>
        simp_all [execute_tem_automation]

/-- Witness for the amended claim C1 at the concrete environment `c1_env`. -/
theorem claim1_witness :
    (execute_tem_automation c1_env).result = true
    ∧ (execute_tem_automation c1_env).attempted = temSteps :=
  (claim1_theorem c1_env rfl rfl rfl rfl rfl).1

/-! ## Claim C2 — Orchestrator entry point exit status -/

/-- Claim C2 is false on the code: in a full-run invocation whose trigger
stage fails (the run stops after the gate and trigger, and the completion
message is never logged), the process exit status is still 0, because no
branch of `main` ever sets a non-zero exit status. -/
theorem claim2_counterexample :
    main fullRunArgs true envC2 = 0
    ∧ (run_automation envC2).stagesRun = ["gate", "trigger"]
    ∧ (run_automation envC2).completedLog = false := by
  refine ⟨rfl, ?_, ?_⟩ <;> decide

/-- Claim C2 amended: `main` exits with status 0 on every invocation, whether
the stages fail or succeed — stage failures are only logged, every exception
is caught, and no path calls for a non-zero exit status. -/
theorem claim2_theorem (args : Args) (initOk : Bool) (env : RunEnv) :
    main args initOk env = 0 := by
  unfold main
  (repeat' split) <;> rfl

/-! ## Claim C3 — Completion Watcher tolerance of failed polls -/

/-- Claim C3 is false on the code: a single non-2xx poll terminates the
polling loop.  With only healthy polls the watcher reports success, but
inserting one 500 response before the very same successful observation makes
`wait_for_build_completion` return failure immediately — the loop never
continues to the next poll, because `check_build`'s `"ERROR"` sentinel is
truthy and breaks `log_with_spinner`. -/
theorem claim3_counterexample :
    wait_for_build_completion [.obs obsOk] (.obs obsOk) = true
    ∧ wait_for_build_completion [.obs obs500, .obs obsOk] (.obs obsOk) = false
    ∧ check_build obs500 = .httpError := by
  refine ⟨rfl, rfl, rfl⟩

/-- Claim C3 amended: a single failed poll terminates the wait with failure —
a network error propagates as an exception out of the loop and is caught by
the outer handler, and a non-2xx status makes `check_build` return the
truthy `"ERROR"` sentinel, which breaks the loop; in both cases
`wait_for_build_completion` returns `False` without attempting any later
poll. -/
theorem claim3_theorem (p : BuildPoll) (rest : List BuildPoll)
    (finalObs : BuildPoll)
    (h : p = .netErr
      ∨ ∃ o, p = .obs o ∧ ¬(200 ≤ o.resp.status ∧ o.resp.status < 300)) :
    wait_for_build_completion (p :: rest) finalObs = false := by
  rcases h with h | ⟨o, rfl, ho⟩
  · subst h; rfl
  · simp only [wait_for_build_completion, pollLoop]
    rw [check_build, if_neg ho]
    rfl

/-- Witness for the amended claim C3 at a concrete 500-status poll. -/
theorem claim3_witness :
    wait_for_build_completion [.obs obs500] (.obs obs500) = false :=
  claim3_theorem (.obs obs500) [] (.obs obs500)
    (Or.inr ⟨obs500, rfl, by decide⟩)

/-! ## Claim C4 — Commit Gate fail-closed behaviour -/

/-- Claim C4 is false on the code: the gate never inspects the exit code of
the `git rev-parse` process.  When the lookup fails with exit code 128 while
still printing `origin/master` on stdout (exactly what `git rev-parse` does
for an unresolvable ref) and no marker file exists, the gate reports a "new
commit" whose value is the literal text `origin/master`, the result is
truthy, and the pipeline proceeds to invoke the build trigger. -/
theorem claim4_counterexample :
    check_for_new_commits (.ran 128 "origin/master\n") none
        = some "origin/master"
    ∧ pyTruthy (check_for_new_commits (.ran 128 "origin/master\n") none)
        = true
    ∧ "trigger" ∈ (run_automation envC4).stagesRun := by
  refine ⟨by decide, by decide, by decide⟩

/-- Claim C4 amended: the gate is fail-closed only for two failure shapes —
an exception raised during the lookup returns `None`, and a failed command
whose captured stdout is blank yields a falsy result (so the pipeline does
not proceed); the VCS exit code itself is ignored, so a failing command that
still prints text on stdout is treated as a new commit. -/
theorem claim4_theorem (m : Option String) (c : Nat) (s : String)
    (hblank : pyStrip s = "") :
    check_for_new_commits .err m = none
    ∧ pyTruthy (check_for_new_commits (.ran c s) m) = false := by
  refine ⟨rfl, ?_⟩
  simp only [check_for_new_commits, hblank]
  split
  · rfl
  · rfl

/-- Witness for the amended claim C4 at blank stdout `" \n"`. -/
theorem claim4_witness :
    check_for_new_commits .err (some "abc") = none
    ∧ pyTruthy (check_for_new_commits (.ran 1 " \n") (some "abc")) = false :=
  claim4_theorem (some "abc") 1 " \n" (by decide)

/-! ## Claim C8 — Completion Watcher terminal classification -/

/-- The console tail logged for a failed build never exceeds 20 lines. -/
theorem consoleTailShown_length_le (status : Nat) (text : String) :
    (consoleTailShown status text).length ≤ 20 := by
  unfold consoleTailShown
  split
  · have h1 := List.length_filter_le (fun l => !(pyStrip l == ""))
      ((pySplitNl text).drop ((pySplitNl text).length - 20))
    have h2 := List.length_drop ((pySplitNl text).length - 20) (pySplitNl text)
    omega
  · simp

/-- Claim C8 confirmed: on any poll with a 2xx status observing the build no
longer running, a `result` of `"SUCCESS"` yields the success outcome, and any
other terminal result yields the failed outcome carrying the console-log tail
shown for diagnostics, which has at most 20 lines. -/
theorem claim8_theorem (o : BuildObs) (h1 : 200 ≤ o.resp.status)
    (h2 : o.resp.status < 300) (hdone : o.resp.building.getD true = false) :
    (o.resp.result.getD "UNKNOWN" = "SUCCESS" → check_build o = .finishedOk)
    ∧ (o.resp.result.getD "UNKNOWN" ≠ "SUCCESS" →
        check_build o = .failed (consoleTailShown o.consoleStatus
          o.consoleText))
    ∧ (consoleTailShown o.consoleStatus o.consoleText).length ≤ 20 := by
  refine ⟨?_, ?_, consoleTailShown_length_le _ _⟩
  · intro hs
    simp [check_build, h1, h2, hdone, hs]
  · intro hs
    simp [check_build, h1, h2, hdone, hs]

/-- Witness for claim C8 at a concrete terminal `ABORTED` observation whose
console text has blank and non-blank lines. -/
theorem claim8_witness :
    check_build ⟨⟨200, some false, some "ABORTED"⟩, 200, "x\n\ny\n"⟩
      = .failed (consoleTailShown 200 "x\n\ny\n")
    ∧ (consoleTailShown 200 "x\n\ny\n").length ≤ 20 := by
  have h := claim8_theorem ⟨⟨200, some false, some "ABORTED"⟩, 200, "x\n\ny\n"⟩
    (by decide) (by decide) (by decide)
  exact ⟨h.2.1 (by decide), h.2.2⟩

/-! ## Claim C9 — Build Trigger fallback order -/

/-- Claim C9 is false on the code at one degenerate input: a success response
that carries a `Location` header whose value is the empty string.  Python's
`if queue_url:` treats it as absent, so the pending-queue-listing lookup IS
invoked and its result — not the location — is returned as the handle. -/
theorem claim9_counterexample :
    envC9.location = some "" ∧ 200 ≤ envC9.status ∧ envC9.status < 300
    ∧ (trigger_jenkins_build envC9).queueLookup = true
    ∧ (trigger_jenkins_build envC9).handle = some "J/queue/item/77/" := by
  refine ⟨rfl, by decide, by decide, by decide, by decide⟩

/-- Claim C9 amended: for every trigger response with a success status that
carries a non-empty `Location` header, `trigger_jenkins_build` returns that
location as the handle and invokes neither the pending-queue-listing lookup
nor the last-known-build-number fallback. -/
theorem claim9_theorem (env : TriggerEnv) (loc : String)
    (h1 : 200 ≤ env.status) (h2 : env.status < 300)
    (hloc : env.location = some loc) (hne : loc ≠ "") :
    trigger_jenkins_build env = ⟨some loc, false, false⟩ := by
  simp [trigger_jenkins_build, h1, h2, hloc, pyTruthy, hne]

/-- Witness for the amended claim C9 at a concrete 204 response carrying the
location `Q/`. -/
theorem claim9_witness :
    trigger_jenkins_build ⟨204, some "Q/", none, none, "j", "u/"⟩
      = ⟨some "Q/", false, false⟩ :=
  claim9_theorem ⟨204, some "Q/", none, none, "j", "u/"⟩ "Q/"
    (by decide) (by decide) rfl (by decide)

/-! ## Claim C5 — Queue Resolver progress-notification buckets -/

/-- Queued minutes are monotone in the poll's wall-clock time. -/
theorem pollMins_mono (q : Nat) {a b : Nat} (h : a ≤ b) :
    pollMins q a ≤ pollMins q b := by
  unfold pollMins
  exact Nat.div_le_div_right (Nat.div_le_div_right (Nat.sub_le_sub_right h q))

/-- Invariant of the notification fold: over a time-ordered run of pending
polls, the reported minute marks are strictly increasing, each is a positive
multiple of 15, and each exceeds the incoming `last_reported_minute`. -/
theorem queueNotifications_props (q : Nat) :
    ∀ (ts : List Nat) (last : Int), ts.Sorted (· ≤ ·) →
      (∀ t ∈ ts, last ≤ (pollMins q t : Int)) →
      (queueNotifications q ts last).Sorted (· < ·) ∧
      ∀ m ∈ queueNotifications q ts last,
        m % 15 = 0 ∧ 0 < m ∧ last < (m : Int) := by
  intro ts
  induction ts with
  | nil =>
    intro last _ _
    simp [queueNotifications]
  | cons t ts ih =>
    intro last hsort hlast
    rw [List.sorted_cons] at hsort
    obtain ⟨hhead, htail⟩ := hsort
    unfold queueNotifications
    by_cases hc : 0 < pollMins q t ∧ pollMins q t % 15 = 0
        ∧ (pollMins q t : Int) ≠ last
    · rw [if_pos hc]
      obtain ⟨hpos, hmod, hne⟩ := hc
      have hlt : last < (pollMins q t : Int) :=
        lt_of_le_of_ne (hlast t (by simp)) (Ne.symm hne)
      have hlast2 : ∀ t2 ∈ ts, (pollMins q t : Int) ≤ (pollMins q t2 : Int) :=
        fun t2 ht2 => by exact_mod_cast pollMins_mono q (hhead t2 ht2)
      obtain ⟨ihs, ihp⟩ := ih (pollMins q t) htail hlast2
      constructor
      · rw [List.sorted_cons]
        refine ⟨fun b hb => ?_, ihs⟩
        have := (ihp b hb).2.2
        exact_mod_cast this
      · intro m hm
        rcases List.mem_cons.mp hm with h1 | h2
        · subst h1; exact ⟨hmod, hpos, hlt⟩
        · obtain ⟨a1, a2, a3⟩ := ihp m h2
          exact ⟨a1, a2, lt_trans hlt a3⟩
    · rw [if_neg hc]
      exact ih last htail (fun t2 ht2 => hlast t2 (by simp [ht2]))

/-- A strictly increasing list of multiples of 15 has at most one element in
any 15-minute bucket. -/
theorem sorted_filter_bucket (l : List Nat) (hl : l.Sorted (· < ·))
    (hm : ∀ m ∈ l, m % 15 = 0) (k : Nat) :
    (l.filter (fun m => m / 15 == k)).length ≤ 1 := by
  have hps : (l.filter (fun m => m / 15 == k)).Sorted (· < ·) :=
    hl.sublist (List.filter_sublist l)
  have hmem : ∀ m ∈ l.filter (fun m => m / 15 == k), m = 15 * k := by
    intro m hmf
    have h1 := List.mem_of_mem_filter hmf
    have h2 := List.of_mem_filter hmf
    have h3 : m / 15 = k := by simpa using h2
    have h4 := hm m h1
    omega
  cases hfe : l.filter (fun m => m / 15 == k) with
  | nil => simp
  | cons a tl =>
    cases tl with
    | nil => simp
    | cons b tl2 =>
      exfalso
      rw [hfe] at hps hmem
      rw [List.sorted_cons] at hps
      have hab : a < b := hps.1 b (by simp)
      have ha : a = 15 * k := hmem a (by simp)
      have hb : b = 15 * k := hmem b (by simp)
      omega

/-- Claim C5 confirmed: over any time-ordered run of still-pending polls
(arbitrary jitter), the queue resolver reports at most one progress
notification per 15-minute bucket of time-since-enqueue; and the jitter-free
schedule of one poll every 10 seconds over exactly 45 minutes of continued
pending status yields exactly three notifications, at the 15-, 30- and
45-minute marks. -/
theorem claim5_theorem (q : Nat) (ts : List Nat) (hs : ts.Sorted (· ≤ ·)) :
    (∀ k, ((queueNotifications q ts (-1)).filter
        (fun m => m / 15 == k)).length ≤ 1)
    ∧ queueNotifications 0 tenSecondPolls (-1) = [15, 30, 45] := by
  constructor
  · intro k
    have h := queueNotifications_props q ts (-1) hs
      (fun t _ => by omega)
    exact sorted_filter_bucket _ h.1 (fun m hm => (h.2 m hm).1) k
  · decide

/-- Witness for claim C5 at two concrete in-order polls (15 and 30 minutes
after enqueue). -/
theorem claim5_witness :
    (∀ k, ((queueNotifications 0 [900000, 1800000] (-1)).filter
        (fun m => m / 15 == k)).length ≤ 1)
    ∧ queueNotifications 0 tenSecondPolls (-1) = [15, 30, 45] :=
  claim5_theorem 0 [900000, 1800000]
    (by simp [List.sorted_cons])

/-! ## Claim C6 — marker advanced only after full success -/

/-- Claim C6 confirmed: whenever the watcher's poll loop breaks on a terminal
non-success build (the `"FAILED"` sentinel), the orchestrator never invokes
the TEM UI-automation stage and leaves the commit marker file unchanged. -/
theorem claim6_theorem (env : RunEnv) (tl : List String)
    (h : pollLoop env.buildPolls = .broke (.failed tl)) :
    "tem" ∉ (run_automation env).stagesRun
    ∧ (run_automation env).marker = env.marker := by
  have hw : wait_for_build_completion env.buildPolls env.buildFinal
      = false := by
    unfold wait_for_build_completion
    rw [h]
  simp only [run_automation, hw]
  split
  · exact ⟨(by decide : "tem" ∉ ["gate"]), rfl⟩
  · split
    · exact ⟨(by decide : "tem" ∉ ["gate", "trigger"]), rfl⟩
    · split
      · exact ⟨(by decide : "tem" ∉ ["gate", "trigger", "queue"]), rfl⟩
      · rw [if_pos trivial]
        exact ⟨(by decide : "tem" ∉ ["gate", "trigger", "queue", "build"]),
          rfl⟩

/-- Witness for claim C6 at the concrete environment `envC6`, whose single
build poll observes a terminal `FAILURE`. -/
theorem claim6_witness :
    "tem" ∉ (run_automation envC6).stagesRun
    ∧ (run_automation envC6).marker = envC6.marker :=
  claim6_theorem envC6 [] (by decide)

/-! ## Claim C7 — gate proceeds iff head differs from marker -/

/-- Claim C7 confirmed: for a successful lookup (exit code 0, non-blank
revision on stdout), the gate returns the new revision exactly when it
differs from the persisted marker value; a missing marker file makes any such
head count as new; and in the spec's scenario A (marker `"abc123"`, remote
head `"abc123"`) the run is a no-op that stops after the gate with the marker
unchanged. -/
theorem claim7_theorem (s : String) (m : Option String)
    (hs : pyStrip s ≠ "") :
    (check_for_new_commits (.ran 0 s) m = some (pyStrip s)
        ↔ pyStrip s ≠ markerValue m)
    ∧ check_for_new_commits (.ran 0 s) none = some (pyStrip s)
    ∧ (run_automation envA).marker = envA.marker
    ∧ (run_automation envA).stagesRun = ["gate"] := by
  refine ⟨?_, ?_, by decide, by decide⟩
  · by_cases hcond : pyStrip s ≠ markerValue m
    · simp [check_for_new_commits, hcond]
    · simp [check_for_new_commits, hcond]
  · simp [check_for_new_commits, markerValue, hs]

/-- Witness for claim C7 at the remote head `"abc123\n"` against the marker
`"zzz"`. -/
theorem claim7_witness :
    (check_for_new_commits (.ran 0 "abc123\n") (some "zzz")
        = some (pyStrip "abc123\n")
      ↔ pyStrip "abc123\n" ≠ markerValue (some "zzz"))
    ∧ check_for_new_commits (.ran 0 "abc123\n") none
        = some (pyStrip "abc123\n")
    ∧ (run_automation envA).marker = envA.marker
    ∧ (run_automation envA).stagesRun = ["gate"] :=
  claim7_theorem "abc123\n" (some "zzz") (by decide)

/-! ## Claim C10 — marker-write failure is swallowed -/

/-- Claim C10 confirmed: when every stage succeeds but the marker-file write
fails, `update_processed_commit` swallows the error (returning with only a
warning and the old marker content), the run still logs the final completion
message, the old marker value remains, and the gate would treat the same
commit as new on the next run. -/
theorem claim10_theorem (env : RunEnv)
    (h1 : pyTruthy (check_for_new_commits env.git env.marker) = true)
    (h2 : pyTruthy (trigger_jenkins_build env.triggerEnv).handle = true)
    (h3 : pyTruthyNat env.queueBuildNumber = true)
    (h4 : wait_for_build_completion env.buildPolls env.buildFinal = true)
    (h5 : (execute_tem_automation env.temEnv).result = true)
    (hw : env.markerWriteOk = false) :
    (run_automation env).completedLog = true
    ∧ (run_automation env).marker = env.marker
    ∧ (∀ (c : String) (mf : Option String),
        update_processed_commit false c mf = (mf, true))
    ∧ pyTruthy (check_for_new_commits env.git env.marker) = true := by
  refine ⟨?_, ?_, fun c mf => rfl, h1⟩ <;>
    simp [run_automation, h1, h2, h3, h4, h5, hw, update_processed_commit]

/-- Witness for claim C10 at the concrete environment `envC10`, where every
stage succeeds and the marker write fails. -/
theorem claim10_witness :
    (run_automation envC10).completedLog = true
    ∧ (run_automation envC10).marker = envC10.marker
    ∧ (∀ (c : String) (mf : Option String),
        update_processed_commit false c mf = (mf, true))
    ∧ pyTruthy (check_for_new_commits envC10.git envC10.marker) = true :=
  claim10_theorem envC10 (by decide) (by decide) (by decide) (by decide)
    (by decide) rfl

end JenkinsTem
